import Mathlib

/-!
Shallow embedding of the voxel global-illumination pipeline of bevy-hikari
(src/voxel.rs), covering the volume-view initialization system, the
visibility-culling system, the queueing of voxel draw items, the mipmap
bind-group construction, and the three render-graph nodes (voxel clear,
voxelization, mipmap).  Engine-side geometry (frustum/OBB intersection) is
kept abstract as a function parameter; render-layer masks follow the
semantics of the bevy 0.7 dependency (default mask is layer 0 only,
intersection is bitwise and being nonzero).  The crate-level constants
VOXEL_SIZE and the compute workgroup size are not part of src and are
modelled from the spec; all dispatch arithmetic is parameterized over the
voxel size so the theorems do not depend on the modelled value.
-/

namespace HikariVoxel

/-- Component-wise three-dimensional vector over the rationals, standing in
for the f32 vector type used by the engine in add_volume_views. -/
structure Vec3 where
  x : Rat
  y : Rat
  z : Rat
  deriving DecidableEq, Repr

instance : Add Vec3 where
  add a b := ⟨a.x + b.x, a.y + b.y, a.z + b.z⟩

instance : Sub Vec3 where
  sub a b := ⟨a.x - b.x, a.y - b.y, a.z - b.z⟩

/-- Division of a vector by a scalar, component-wise; mirrors vector / 2.0
in add_volume_views. -/
def Vec3.divScalar (v : Vec3) (s : Rat) : Vec3 :=
  ⟨v.x / s, v.y / s, v.z / s⟩

/-- Symbolic representation of the three quaternion values appearing in
add_volume_views: Quat::IDENTITY, Quat::from_rotation_y(FRAC_PI_2) and
Quat::from_rotation_x(FRAC_PI_2). -/
inductive Rotation where
  | identity
  | rotationY90
  | rotationX90
  deriving DecidableEq, Repr

/-- Rigid transform of a volume view.  The source builds
GlobalTransform::from_translation(center) * GlobalTransform::from_rotation(r),
whose translation part is center and whose rotation part is r. -/
structure ViewTransform where
  translation : Vec3
  rotation : Rotation
  deriving DecidableEq, Repr

/-- Orthographic projection bounds set by add_volume_views.  The remaining
fields of OrthographicProjection keep their engine defaults and play no role
in the claims. -/
structure OrthographicProjection where
  left : Rat
  right : Rat
  bottom : Rat
  top : Rat
  near : Rat
  far : Rat
  deriving DecidableEq, Repr

/-- Entity spawned for one volume view: the VolumeView bundle of
add_volume_views (transform, projection; the Frustum and VisibleEntities
components start at their defaults and are recomputed elsewhere). -/
structure ViewEntity where
  id : Nat
  transform : ViewTransform
  projection : OrthographicProjection
  deriving DecidableEq, Repr

/-- Volume component: world-space corners plus the list of view entity ids. -/
structure Volume where
  min : Vec3
  max : Vec3
  views : List Nat
  deriving DecidableEq, Repr

/-- Rotation list iterated by the for-loop in add_volume_views, in source
order. -/
def rotations : List Rotation :=
  [Rotation.identity, Rotation.rotationY90, Rotation.rotationX90]

/-- Construction of one spawned view entity from the loop body of
add_volume_views. -/
def spawn_view (center extend : Vec3) (r : Rotation) (id : Nat) : ViewEntity :=
  { id := id
    transform := ⟨center, r⟩
    projection :=
      { left := -extend.x
        right := extend.x
        bottom := -extend.y
        top := extend.y
        near := -extend.z
        far := extend.z } }

/-- Sequential spawning of view entities with fresh ids, one per rotation. -/
def spawn_views (center extend : Vec3) : List Rotation → Nat → List ViewEntity
  | [], _ => []
  | r :: rs, n => spawn_view center extend r n :: spawn_views center extend rs (n + 1)

/-- Result of processing a single volume in add_volume_views: the updated
volume, the spawned view entities, and the next fresh entity id. -/
structure VolumeStepResult where
  volume : Volume
  spawned : List ViewEntity
  nextId : Nat
  deriving DecidableEq, Repr

/-- Loop body of add_volume_views for one volume: skip when views is
non-empty, otherwise compute center and half-extent and spawn one view per
rotation, pushing each spawned entity id into the views list. -/
def add_volume_views_volume (v : Volume) (nextId : Nat) : VolumeStepResult :=
  if v.views.isEmpty then
    let center := (v.max + v.min).divScalar 2
    let extend := (v.max - v.min).divScalar 2
    let spawned := spawn_views center extend rotations nextId
    ⟨{ v with views := v.views ++ spawned.map ViewEntity.id }, spawned,
      nextId + spawned.length⟩
  else
    ⟨v, [], nextId⟩

/-- Result of one run of add_volume_views over all volumes. -/
structure RunResult where
  volumes : List Volume
  spawned : List ViewEntity
  nextId : Nat
  deriving DecidableEq, Repr

/-- Iteration of add_volume_views over the volume query, threading the
fresh-entity counter. -/
def run_volumes : List Volume → Nat → RunResult
  | [], n => ⟨[], [], n⟩
  | v :: vs, n =>
    let r := add_volume_views_volume v n
    let rest := run_volumes vs r.nextId
    ⟨r.volume :: rest.volumes, r.spawned ++ rest.spawned, rest.nextId⟩

/-- World state visible to the add_volume_views system: the volumes, the
already-spawned view entities, and the fresh-entity counter. -/
structure World where
  volumes : List Volume
  viewEntities : List ViewEntity
  nextId : Nat
  deriving DecidableEq, Repr

/-- One run of the add_volume_views system over the world. -/
def add_volume_views (w : World) : World :=
  let r := run_volumes w.volumes w.nextId
  ⟨r.volumes, w.viewEntities ++ r.spawned, r.nextId⟩

/-- Render-layer bitmask, as defined by the bevy 0.7 dependency: a u32
bitmask whose default value is the mask containing only layer 0, and whose
intersection test is the bitwise and of the two masks being nonzero. -/
structure RenderLayers where
  mask : Nat
  deriving DecidableEq, Repr

/-- RenderLayers::layer(n) builds the single-bit mask 1 shifted left by n;
the dependency asserts n is below 32, so the u32 reduction is explicit. -/
def RenderLayers.layer (n : Nat) : RenderLayers :=
  ⟨(1 <<< n) % 2 ^ 32⟩

/-- Default render-layer mask of the bevy dependency: layer 0 only. -/
def RenderLayers.default : RenderLayers :=
  RenderLayers.layer 0

/-- Intersection test of two layer masks. -/
def RenderLayers.intersects (a b : RenderLayers) : Bool :=
  a.mask &&& b.mask != 0

/-- Frustum of a volume view, treated as opaque data: the geometric
intersection test lives in the engine and is passed in as a function. -/
structure Frustum where
  tag : Nat
  deriving DecidableEq, Repr

/-- Axis-aligned bounding box component of a scene entity, treated as opaque
engine data. -/
structure Aabb where
  tag : Nat
  deriving DecidableEq, Repr

/-- Global transform component of a scene entity, treated as opaque engine
data; check_visibility only feeds its computed matrix to the engine
intersection test. -/
structure WorldTransform where
  tag : Nat
  deriving DecidableEq, Repr

/-- Scene entity as seen by check_visibility: Visibility flag,
ComputedVisibility flag, presence of the NotGiCaster marker, and the
optional RenderLayers, Aabb and GlobalTransform components. -/
structure SceneEntity where
  id : Nat
  visibility : Bool
  computedVisibility : Bool
  notGiCaster : Bool
  renderLayers : Option RenderLayers
  aabb : Option Aabb
  transform : Option WorldTransform
  deriving DecidableEq, Repr

/-- Volume view as seen by check_visibility: its visible-entity list, its
frustum and its optional RenderLayers component. -/
structure CullView where
  visibleEntities : List Nat
  frustum : Frustum
  renderLayers : Option RenderLayers
  deriving DecidableEq, Repr

/-- Layer-mask check of check_visibility: both sides fall back to the
default mask when the component is absent. -/
def layer_check (view : CullView) (e : SceneEntity) : Bool :=
  (view.renderLayers.getD RenderLayers.default).intersects
    (e.renderLayers.getD RenderLayers.default)

/-- Per-entity checks of the inner loop of check_visibility, given the
engine frustum-OBB intersection test: the visibility flag, the layer check,
and (only when both an Aabb and a transform are present) the frustum test. -/
def view_accepts (intersectsObb : Frustum → Aabb → WorldTransform → Bool)
    (view : CullView) (e : SceneEntity) : Bool :=
  e.visibility &&
  layer_check view e &&
  (match e.aabb, e.transform with
   | some aabb, some tf => intersectsObb view.frustum aabb tf
   | _, _ => true)

/-- Membership condition for the set-true phase: the entity is in the second
query (thus lacks NotGiCaster) and passes every check for this view. -/
def culled (intersectsObb : Frustum → Aabb → WorldTransform → Bool)
    (view : CullView) (e : SceneEntity) : Bool :=
  !e.notGiCaster && view_accepts intersectsObb view e

/-- Update of one entity by the set-true phase of one view. -/
def set_visible (intersectsObb : Frustum → Aabb → WorldTransform → Bool)
    (view : CullView) (e : SceneEntity) : SceneEntity :=
  if culled intersectsObb view e then { e with computedVisibility := true } else e

/-- Processing of one volume view by check_visibility: the visible-entity
list is cleared and refilled with the passing entities in query order, and
each passing entity has its computed visibility set to true. -/
def view_pass (intersectsObb : Frustum → Aabb → WorldTransform → Bool)
    (view : CullView) (es : List SceneEntity) : CullView × List SceneEntity :=
  ({ view with
      visibleEntities := (es.filter (fun e => culled intersectsObb view e)).map SceneEntity.id },
   es.map (set_visible intersectsObb view))

/-- Reset phase of check_visibility: the first query is unfiltered, so every
entity with a ComputedVisibility component is set to not visible. -/
def reset_phase (es : List SceneEntity) : List SceneEntity :=
  es.map (fun e => { e with computedVisibility := false })

/-- Iteration of check_visibility over the view query, threading the entity
states. -/
def run_views (intersectsObb : Frustum → Aabb → WorldTransform → Bool) :
    List CullView → List SceneEntity → List CullView × List SceneEntity
  | [], es => ([], es)
  | v :: vs, es =>
    let p := view_pass intersectsObb v es
    let rest := run_views intersectsObb vs p.2
    (p.1 :: rest.1, rest.2)

/-- One run of the check_visibility system: reset all computed-visibility
flags, then process every volume view in order. -/
def check_visibility (intersectsObb : Frustum → Aabb → WorldTransform → Bool)
    (views : List CullView) (es : List SceneEntity) :
    List CullView × List SceneEntity :=
  run_views intersectsObb views (reset_phase es)

/-- Global GI configuration resource. -/
structure GiConfig where
  enabled : Bool
  deriving DecidableEq, Repr

/-- References to the GPU textures of one volume.  voxelTexture is the base
3D voxel texture (its default view); anisotropic d is the full default view
of the direction-d anisotropic texture; anisotropicLevel d l is the
single-mip view of level l of the direction-d anisotropic texture. -/
inductive TextureRef where
  | voxelTexture
  | anisotropic (direction : Nat)
  | anisotropicLevel (direction : Nat) (level : Nat)
  deriving DecidableEq, Repr

/-- Bind group over the mipmap_layout: binding 0 is a read-only sampled
texture, binding 1 is the only write-only storage texture, and binding 2 is
always the read-write voxel storage buffer of the volume. -/
structure MipmapLayoutBindGroup where
  inputTexture : TextureRef
  outputTexture : TextureRef
  deriving DecidableEq, Repr

/-- Bind group over the mipmap_base_layout: bindings 0 to 5 are write-only
storage textures (one per direction) and binding 6 is the read-only voxel
texture. -/
structure MipmapBaseBindGroup where
  outputs : List TextureRef
  input : TextureRef
  deriving DecidableEq, Repr

/-- MipmapBindGroup component built once per volume by
queue_mipmap_bind_groups. -/
structure MipmapBindGroupData where
  mipmap_base : MipmapBaseBindGroup
  mipmaps : List (List MipmapLayoutBindGroup)
  clear : MipmapLayoutBindGroup
  deriving DecidableEq, Repr

/-- Construction of the MipmapBindGroup of one volume, from
queue_mipmap_bind_groups: the base group writes level 0 of all six
anisotropic textures and reads the voxel texture; the per-level groups read
level l and write level l+1 of the same direction for consecutive level
pairs; the clear group reads the full direction-0 anisotropic texture and
writes the voxel texture.  levelCount stands for the crate-level
VOXEL_ANISOTROPIC_MIPMAP_LEVEL_COUNT constant, which is not part of src. -/
def queue_mipmap_bind_groups (levelCount : Nat) : MipmapBindGroupData :=
  { mipmap_base :=
      { outputs := (List.range 6).map (fun d => TextureRef.anisotropicLevel d 0)
        input := TextureRef.voxelTexture }
    mipmaps :=
      (List.range (levelCount - 1)).map (fun l =>
        (List.range 6).map (fun d =>
          { inputTexture := TextureRef.anisotropicLevel d l
            outputTexture := TextureRef.anisotropicLevel d (l + 1) }))
    clear :=
      { inputTexture := TextureRef.anisotropic 0
        outputTexture := TextureRef.voxelTexture } }

/-- Compute pipelines of the voxel pipeline resource. -/
inductive Pipeline where
  | clear
  | fill
  | mipmapBase
  | mipmapDir (direction : Nat)
  deriving DecidableEq, Repr

/-- Bind group attached to one compute dispatch. -/
inductive BoundGroup where
  | mipmapLayout (bg : MipmapLayoutBindGroup)
  | baseLayout (bg : MipmapBaseBindGroup)
  deriving DecidableEq, Repr

/-- Record of one compute dispatch: pipeline, bound group, and the three
thread-group counts. -/
structure Dispatch where
  pipeline : Pipeline
  bindGroup : BoundGroup
  x : Nat
  y : Nat
  z : Nat
  deriving DecidableEq, Repr

/-- Modelled from the spec: the voxel grid resolution VOXEL_SIZE is a
crate-level constant not present in src; the spec end-to-end scenario fixes
it to 256.  All dispatch functions below take the size as a parameter. -/
def VOXEL_SIZE : Nat := 256

/-- Modelled from the spec: the clear, fill and mipmap compute shaders use
thread groups of 8 threads per axis; the shader sources are not in src. -/
def WORKGROUP_SIZE : Nat := 8

/-- Dispatch recorded by VoxelClearPassNode for one volume: the clear
pipeline with the clear bind group, voxelSize / 8 groups per axis. -/
def clear_dispatch (voxelSize : Nat) (g : MipmapBindGroupData) : Dispatch :=
  ⟨Pipeline.clear, BoundGroup.mipmapLayout g.clear,
    voxelSize / 8, voxelSize / 8, voxelSize / 8⟩

/-- First dispatch of MipmapPassNode for one volume: the fill pipeline with
the clear bind group, voxelSize / 8 groups per axis. -/
def fill_dispatch (voxelSize : Nat) (g : MipmapBindGroupData) : Dispatch :=
  ⟨Pipeline.fill, BoundGroup.mipmapLayout g.clear,
    voxelSize / 8, voxelSize / 8, voxelSize / 8⟩

/-- Base-mip dispatch of MipmapPassNode: size is voxelSize / 2, the group
counts are size / 8 floored to a minimum of 1 in x and y, and size itself in
z, exactly as in pass.dispatch(count, count, size). -/
def mipmap_base_dispatch (voxelSize : Nat) (g : MipmapBindGroupData) : Dispatch :=
  let size := voxelSize / 2
  let count := max (size / 8) 1
  ⟨Pipeline.mipmapBase, BoundGroup.baseLayout g.mipmap_base, count, count, size⟩

/-- Edge size dispatched at one recursive mip level: voxelSize / (2 shifted
left by level), as in the source expression VOXEL_SIZE / (2 << level). -/
def mip_level_size (voxelSize level : Nat) : Nat :=
  voxelSize / (2 <<< level)

/-- Per-axis thread-group count for a given edge size: size / 8 floored to a
minimum of 1. -/
def mip_dispatch_count (size : Nat) : Nat :=
  max (size / 8) 1

/-- Fallback bind group for out-of-range direction indexing; the source
indexes bind_groups[direction] with direction below 6 and the constructed
groups always have 6 entries. -/
def default_mip_bg : MipmapLayoutBindGroup :=
  ⟨TextureRef.voxelTexture, TextureRef.voxelTexture⟩

/-- Recursive-mip dispatch of MipmapPassNode at one level and direction: the
direction-specific pipeline with the level bind group and the cubed group
count. -/
def mip_dispatch (voxelSize level direction : Nat) (bg : MipmapLayoutBindGroup) :
    Dispatch :=
  let c := mip_dispatch_count (mip_level_size voxelSize level)
  ⟨Pipeline.mipmapDir direction, BoundGroup.mipmapLayout bg, c, c, c⟩

/-- Body of MipmapPassNode::run once past the enable gate: per volume, one
fill dispatch, one base-mip dispatch, then for every stored level list
(level index starting at 1) one dispatch per direction. -/
def mipmap_pass_body (voxelSize : Nat) (gs : List MipmapBindGroupData) :
    List Dispatch :=
  gs.flatMap (fun g =>
    fill_dispatch voxelSize g ::
    mipmap_base_dispatch voxelSize g ::
    g.mipmaps.enum.flatMap (fun p =>
      (List.range 6).map (fun d =>
        mip_dispatch voxelSize (p.1 + 1) d (p.2.getD d default_mip_bg))))

/-- MipmapPassNode::run: when the GiConfig resource is present and disabled
the node returns with no dispatches; otherwise (enabled or resource absent)
the body runs. -/
def mipmap_pass_run (voxelSize : Nat) (config : Option GiConfig)
    (gs : List MipmapBindGroupData) : List Dispatch :=
  match config with
  | some c => if !c.enabled then [] else mipmap_pass_body voxelSize gs
  | none => mipmap_pass_body voxelSize gs

/-- Body of VoxelClearPassNode::run once past the enable gate: one clear
dispatch per volume. -/
def voxel_clear_pass_body (voxelSize : Nat) (gs : List MipmapBindGroupData) :
    List Dispatch :=
  gs.map (clear_dispatch voxelSize)

/-- VoxelClearPassNode::run with the same enable gate as the mipmap node. -/
def voxel_clear_pass_run (voxelSize : Nat) (config : Option GiConfig)
    (gs : List MipmapBindGroupData) : List Dispatch :=
  match config with
  | some c => if !c.enabled then [] else voxel_clear_pass_body voxelSize gs
  | none => voxel_clear_pass_body voxelSize gs

/-- Voxel phase item queued per visible mesh per volume view; the sort key
distance is always written as zero by queue_voxel_meshes. -/
structure VoxelItem where
  entity : Nat
  distance : Rat
  deriving DecidableEq, Repr

/-- Commands recorded by VoxelPassNode: beginning a render pass for a view
(clearing its color attachment), and drawing one queued item. -/
inductive DrawCommand where
  | begin_pass (view : Nat)
  | draw (view : Nat) (item : VoxelItem)
  deriving DecidableEq, Repr

/-- One volume view as seen by VoxelPassNode: the view entity and its queued
voxel phase items. -/
structure VolumeViewPhase where
  view : Nat
  items : List VoxelItem
  deriving DecidableEq, Repr

/-- Body of VoxelPassNode::run for a resolved volume: per view, begin a
render pass and draw every queued item in phase order. -/
def voxel_pass_body (views : List VolumeViewPhase) : List DrawCommand :=
  views.flatMap (fun v =>
    DrawCommand.begin_pass v.view :: v.items.map (fun it => DrawCommand.draw v.view it))

/-- VoxelPassNode::run: the same enable gate as the compute nodes, then the
input entity is looked up as a volume; a failed lookup records nothing. -/
def voxel_pass_run (config : Option GiConfig)
    (volume : Option (List VolumeViewPhase)) : List DrawCommand :=
  match config with
  | some c =>
    if !c.enabled then []
    else
      match volume with
      | some vws => voxel_pass_body vws
      | none => []
  | none =>
    match volume with
    | some vws => voxel_pass_body vws
    | none => []

/-- Asset environment of queue_voxel_meshes: the material and mesh handles
of an entity, and whether each handle resolves to a GPU-resident asset. -/
structure QueueAssets where
  materialMesh : Nat → Option (Nat × Nat)
  materialLoaded : Nat → Bool
  meshLoaded : Nat → Bool

/-- Items queued for one view by queue_voxel_meshes: every visible entity
whose material and mesh are both resident yields one item with distance
zero; others are silently skipped. -/
def queue_items (assets : QueueAssets) (visible : List Nat) : List VoxelItem :=
  visible.filterMap (fun e =>
    match assets.materialMesh e with
    | some mm =>
      if assets.materialLoaded mm.1 then
        if assets.meshLoaded mm.2 then some ⟨e, 0⟩ else none
      else none
    | none => none)

/-- Volume view as seen by queue_voxel_meshes: its visible-entity list and
its voxel render phase. -/
structure ViewPhase where
  visible : List Nat
  phase : List VoxelItem

/-- The queue_voxel_meshes system: an early return leaves every phase
untouched when the GI flag is disabled; otherwise the queued items are added
to each view phase. -/
def queue_voxel_meshes (config : GiConfig) (assets : QueueAssets)
    (views : List ViewPhase) : List ViewPhase :=
  if !config.enabled then views
  else views.map (fun v => { v with phase := v.phase ++ queue_items assets v.visible })

/-- Effect of a dispatch list on an abstract GPU state: folding an arbitrary
per-dispatch step function; an empty list leaves the state unchanged. -/
def apply_dispatches {σ : Type} (step : Dispatch → σ → σ)
    (ds : List Dispatch) (s : σ) : σ :=
  ds.foldl (fun st d => step d st) s

/-- Concrete volume with empty views used by witnesses. -/
def volA : Volume :=
  ⟨⟨0, 0, 0⟩, ⟨2, 4, 6⟩, []⟩

/-- Concrete volume with a non-empty views list used by witnesses. -/
def volB : Volume :=
  ⟨⟨0, 0, 0⟩, ⟨2, 4, 6⟩, [5]⟩

/-- Concrete frustum-OBB test accepting everything, used by witnesses. -/
def acceptAll : Frustum → Aabb → WorldTransform → Bool :=
  fun _ _ _ => true

/-- Concrete volume view without a RenderLayers component. -/
def viewNoMask : CullView :=
  ⟨[], ⟨0⟩, none⟩

/-- Concrete scene entity on layer 1 only, visible, not GI-excluded, with no
bounding volume. -/
def entityLayer1 : SceneEntity :=
  ⟨7, true, false, false, some (RenderLayers.layer 1), none, none⟩

/-- Concrete scene entity with the visibility flag off but intersecting
bounds, used by the culling witness. -/
def entityHidden : SceneEntity :=
  ⟨7, false, true, false, none, some ⟨0⟩, some ⟨0⟩⟩

/-- Concrete NotGiCaster scene entity whose computed visibility starts
true, used by the reset witness. -/
def entityCaster : SceneEntity :=
  ⟨9, true, true, true, none, none, none⟩

/-- Concrete scene entity with no RenderLayers component. -/
def entityNoMask : SceneEntity :=
  ⟨4, true, false, false, none, none, none⟩

/-- Concrete volume view whose mask contains exactly layer 0. -/
def viewLayer0 : CullView :=
  ⟨[], ⟨0⟩, some (RenderLayers.layer 0)⟩

/-- Placeholder dispatch used as a headD default value by witnesses. -/
def dispatch0 : Dispatch :=
  ⟨Pipeline.clear, BoundGroup.mipmapLayout default_mip_bg, 0, 0, 0⟩

/-!
Theorems.  Helper lemmas come first, then one theorem per claim, each with
its witness or counterexample where required.
-/

/-- Unfolding of the spawn loop over the three source rotations. -/
theorem spawn_views_rotations (c e : Vec3) (n : Nat) :
    spawn_views c e rotations n =
      [spawn_view c e Rotation.identity n,
       spawn_view c e Rotation.rotationY90 (n + 1),
       spawn_view c e Rotation.rotationX90 (n + 2)] := by
  simp [rotations, spawn_views]

/-- Processing a volume whose views list is non-empty changes nothing. -/
theorem add_volume_views_volume_skip (v : Volume) (n : Nat) (h : v.views ≠ []) :
    add_volume_views_volume v n = ⟨v, [], n⟩ := by
  cases hv : v.views with
  | nil => exact absurd hv h
  | cons a as => simp [add_volume_views_volume, hv]

/-- After processing, every volume has a non-empty views list. -/
theorem add_volume_views_volume_ne_nil (v : Volume) (n : Nat) :
    (add_volume_views_volume v n).volume.views ≠ [] := by
  cases hv : v.views with
  | nil => simp [add_volume_views_volume, hv, spawn_views, rotations]
  | cons a as => simp [add_volume_views_volume, hv]

/-- Running the initialization over volumes that all have views is a no-op. -/
theorem run_volumes_skip (vs : List Volume) (n : Nat)
    (h : ∀ v ∈ vs, v.views ≠ []) : run_volumes vs n = ⟨vs, [], n⟩ := by
  induction vs generalizing n with
  | nil => simp [run_volumes]
  | cons v rest ih =>
    have hv := h v (by simp)
    have hrest : ∀ u ∈ rest, u.views ≠ [] := fun u hu => h u (by simp [hu])
    simp [run_volumes, add_volume_views_volume_skip v n hv, ih n hrest]

/-- After one run, every volume in the result has a non-empty views list. -/
theorem run_volumes_views_ne (vs : List Volume) (n : Nat) :
    ∀ v ∈ (run_volumes vs n).volumes, v.views ≠ [] := by
  induction vs generalizing n with
  | nil => simp [run_volumes]
  | cons v rest ih =>
    intro u hu
    simp only [run_volumes] at hu
    rcases List.mem_cons.mp hu with h | h
    · exact h ▸ add_volume_views_volume_ne_nil v n
    · exact ih _ u h

/-- C1: for every Volume whose views list is empty, one run of the
volume-view initialization system appends exactly 3 view entities, so that
afterwards the views list has length 3 and lists exactly the spawned
entities; each spawned view carries orthographic bounds equal to plus or
minus the componentwise half-extent (max - min) / 2 of the volume
(left/right from x, bottom/top from y, near/far from z), each view is
placed at the volume center with rotation identity, 90 degrees about Y,
90 degrees about X, in that order; and a Volume whose views list is
already non-empty is left unchanged. -/
theorem add_volume_views_initializes (v : Volume) (n : Nat) :
    (v.views = [] →
      (add_volume_views_volume v n).volume.views.length = 3 ∧
      (add_volume_views_volume v n).spawned.length = 3 ∧
      (add_volume_views_volume v n).volume.views
        = (add_volume_views_volume v n).spawned.map ViewEntity.id ∧
      (∀ ve ∈ (add_volume_views_volume v n).spawned,
        ve.transform.translation = (v.max + v.min).divScalar 2 ∧
        ve.projection.left = -((v.max - v.min).divScalar 2).x ∧
        ve.projection.right = ((v.max - v.min).divScalar 2).x ∧
        ve.projection.bottom = -((v.max - v.min).divScalar 2).y ∧
        ve.projection.top = ((v.max - v.min).divScalar 2).y ∧
        ve.projection.near = -((v.max - v.min).divScalar 2).z ∧
        ve.projection.far = ((v.max - v.min).divScalar 2).z) ∧
      (add_volume_views_volume v n).spawned.map (fun ve => ve.transform.rotation)
        = [Rotation.identity, Rotation.rotationY90, Rotation.rotationX90]) ∧
    (v.views ≠ [] → add_volume_views_volume v n = ⟨v, [], n⟩) := by
  constructor
  · intro h
    simp [add_volume_views_volume, h, spawn_views_rotations, spawn_view]
  · intro h
    exact add_volume_views_volume_skip v n h

/-- Witness for C1 at a concrete volume with bounds (0,0,0) to (2,4,6): the
empty-views branch spawns 3 views and the non-empty branch is a no-op. -/
theorem add_volume_views_initializes_witness :
    (add_volume_views_volume volA 10).volume.views.length = 3 ∧
    add_volume_views_volume volB 0 = ⟨volB, [], 0⟩ :=
  ⟨((add_volume_views_initializes volA 10).1 rfl).1,
   (add_volume_views_initializes volB 0).2 (by decide)⟩

/-- C2: volume-view initialization is idempotent: a second run of the
add_volume_views system after a first run changes nothing, volumes and
spawned view entities included. -/
theorem add_volume_views_idempotent (w : World) :
    add_volume_views (add_volume_views w) = add_volume_views w := by
  unfold add_volume_views
  simp [run_volumes_skip _ _ (run_volumes_views_ne w.volumes w.nextId)]

/-- Identity is preserved by the set-true phase update. -/
theorem set_visible_id (i : Frustum → Aabb → WorldTransform → Bool)
    (v : CullView) (e : SceneEntity) : (set_visible i v e).id = e.id := by
  unfold set_visible
  split <;> rfl

/-- Visibility flag is preserved by the set-true phase update. -/
theorem set_visible_visibility (i : Frustum → Aabb → WorldTransform → Bool)
    (v : CullView) (e : SceneEntity) :
    (set_visible i v e).visibility = e.visibility := by
  unfold set_visible
  split <;> rfl

/-- NotGiCaster marker is preserved by the set-true phase update. -/
theorem set_visible_notGiCaster (i : Frustum → Aabb → WorldTransform → Bool)
    (v : CullView) (e : SceneEntity) :
    (set_visible i v e).notGiCaster = e.notGiCaster := by
  unfold set_visible
  split <;> rfl

/-- Every id in the visible list produced for one view comes from an entity
of the query that is marked visible and lacks the NotGiCaster marker. -/
theorem view_pass_visible_src (i : Frustum → Aabb → WorldTransform → Bool)
    (v : CullView) (es : List SceneEntity) (idv : Nat)
    (h : idv ∈ (view_pass i v es).1.visibleEntities) :
    ∃ e ∈ es, e.id = idv ∧ e.visibility = true ∧ e.notGiCaster = false := by
  simp only [view_pass, List.mem_map, List.mem_filter] at h
  rcases h with ⟨e, ⟨hmem, hcull⟩, hid⟩
  have hc := hcull
  simp only [culled, view_accepts, Bool.and_eq_true, Bool.not_eq_true'] at hc
  exact ⟨e, hmem, hid, hc.2.1.1, hc.1⟩

/-- Lifting of the per-view source lemma through the fold over all views. -/
theorem run_views_visible_src (i : Frustum → Aabb → WorldTransform → Bool)
    (vs : List CullView) (es : List SceneEntity) :
    ∀ v' ∈ (run_views i vs es).1, ∀ idv ∈ v'.visibleEntities,
      ∃ e ∈ es, e.id = idv ∧ e.visibility = true ∧ e.notGiCaster = false := by
  induction vs generalizing es with
  | nil => simp [run_views]
  | cons v rest ih =>
    intro v' hv' idv hid
    simp only [run_views] at hv'
    rcases List.mem_cons.mp hv' with h | h
    · subst h
      exact view_pass_visible_src i v es idv hid
    · obtain ⟨e1, he1, hide, hvis, hng⟩ := ih (view_pass i v es).2 v' h idv hid
      rcases List.mem_map.mp (by simpa [view_pass] using he1) with ⟨e0, he0, rfl⟩
      exact ⟨e0, he0,
        (set_visible_id i v e0) ▸ hide,
        (set_visible_visibility i v e0) ▸ hvis,
        (set_visible_notGiCaster i v e0) ▸ hng⟩

/-- C3: after one run of check_visibility, an entity whose visibility flag
is false, or which carries the NotGiCaster marker, appears in no volume
view visible-entity list, for every frustum-intersection behavior
(in particular even when its bounds intersect the frustum) and regardless
of layer masks.  Entity ids are assumed distinct, as in the ECS. -/
theorem check_visibility_excludes (i : Frustum → Aabb → WorldTransform → Bool)
    (views : List CullView) (es : List SceneEntity) (e : SceneEntity)
    (he : e ∈ es) (hflag : e.visibility = false ∨ e.notGiCaster = true)
    (hids : (es.map SceneEntity.id).Nodup) :
    ∀ v' ∈ (check_visibility i views es).1, e.id ∉ v'.visibleEntities := by
  intro v' hv' hid
  obtain ⟨e1, he1, hide, hvis, hng⟩ :=
    run_views_visible_src i views (reset_phase es) v' hv' e.id hid
  rcases List.mem_map.mp (by simpa [reset_phase] using he1) with ⟨e0, he0, rfl⟩
  have h01 : e0.id = e.id := hide
  have h02 : e0.visibility = true := hvis
  have h03 : e0.notGiCaster = false := hng
  have heq : e0 = e := List.inj_on_of_nodup_map hids he0 he h01
  rcases hflag with h | h
  · rw [heq, h] at h02
    exact Bool.noConfusion h02
  · rw [heq, h] at h03
    exact Bool.noConfusion h03

/-- Witness for C3: a concrete hidden entity with intersecting bounds is
absent from the visible list of the single volume view. -/
theorem check_visibility_excludes_witness :
    (7 : Nat) ∉
      ((check_visibility acceptAll [viewNoMask] [entityHidden]).1.headD
        viewNoMask).visibleEntities := by
  have h := check_visibility_excludes acceptAll [viewNoMask] [entityHidden]
    entityHidden (by simp) (Or.inl rfl) (by simp)
  exact h _ (by decide)

/-- Per-entity invariant of the set-true phase: an entity carrying the
NotGiCaster marker is never updated, since the second query excludes it. -/
theorem set_visible_preserves_excluded (i : Frustum → Aabb → WorldTransform → Bool)
    (v : CullView) (e : SceneEntity)
    (h : e.notGiCaster = true → e.computedVisibility = false) :
    (set_visible i v e).notGiCaster = true →
      (set_visible i v e).computedVisibility = false := by
  unfold set_visible
  split
  · rename_i hcase
    intro hng
    simp only [culled, Bool.and_eq_true, Bool.not_eq_true'] at hcase
    exact absurd hng (by simp [hcase.1])
  · exact h

/-- Lifting of the NotGiCaster invariant through the fold over all views. -/
theorem run_views_preserves_excluded (i : Frustum → Aabb → WorldTransform → Bool)
    (vs : List CullView) (es : List SceneEntity)
    (h : ∀ e ∈ es, e.notGiCaster = true → e.computedVisibility = false) :
    ∀ e ∈ (run_views i vs es).2, e.notGiCaster = true →
      e.computedVisibility = false := by
  induction vs generalizing es with
  | nil => simpa [run_views] using h
  | cons v rest ih =>
    intro e' he'
    simp only [run_views] at he'
    refine ih (view_pass i v es).2 ?_ e' he'
    intro e0 he0
    rcases List.mem_map.mp (by simpa [view_pass] using he0) with ⟨e1, he1, rfl⟩
    exact set_visible_preserves_excluded i v e1 (h e1 he1)

/-- C10: the reset phase of check_visibility is unfiltered and sets the
computed-visibility flag to false for every entity that has it, NotGiCaster
entities included, while the set-true phase excludes NotGiCaster entities;
hence after one run every NotGiCaster entity has a false computed
visibility, regardless of its value before the run. -/
theorem check_visibility_resets_excluded
    (i : Frustum → Aabb → WorldTransform → Bool)
    (views : List CullView) (es : List SceneEntity) :
    ∀ e' ∈ (check_visibility i views es).2, e'.notGiCaster = true →
      e'.computedVisibility = false := by
  unfold check_visibility
  apply run_views_preserves_excluded
  intro e he
  rcases List.mem_map.mp (by simpa [reset_phase] using he) with ⟨e0, _, rfl⟩
  intro _
  rfl

/-- Witness for C10: a concrete NotGiCaster entity whose computed
visibility starts true ends with it false after one run. -/
theorem check_visibility_resets_excluded_witness :
    ((check_visibility acceptAll [viewNoMask] [entityCaster]).2.headD
      entityCaster).computedVisibility = false :=
  check_visibility_resets_excluded acceptAll [viewNoMask] [entityCaster] _
    (by decide) (by decide)

/-- Counterexample for C4 as stated: a view without a RenderLayers mask
does not accept entities of every layer.  The concrete visible,
non-excluded entity on layer 1 is rejected by the maskless view, because a
missing mask defaults to the mask containing only layer 0, not to the mask
containing all layers. -/
theorem layer_default_counterexample :
    entityLayer1.visibility = true ∧ entityLayer1.notGiCaster = false ∧
    viewNoMask.renderLayers = none ∧
    ((check_visibility acceptAll [viewNoMask] [entityLayer1]).1.headD
      viewNoMask).visibleEntities = [] ∧
    RenderLayers.default.intersects (RenderLayers.layer 1) = false := by
  decide

/-- C4 as amended: when either side of the layer check lacks a
RenderLayers component, the missing side is treated as the default mask,
which contains only layer 0 (not all layers).  Consequently two maskless
sides pass each other, a maskless side is compared via the default mask,
the default mask rejects layer 1, and a maskless visible entity without
bounds is accepted end to end by a maskless view. -/
theorem layer_check_missing_defaults (view : CullView) (e : SceneEntity)
    (i : Frustum → Aabb → WorldTransform → Bool) :
    (view.renderLayers = none → e.renderLayers = none →
      layer_check view e = true) ∧
    (view.renderLayers = none → ∀ m, e.renderLayers = some m →
      layer_check view e = RenderLayers.default.intersects m) ∧
    (e.renderLayers = none → ∀ m, view.renderLayers = some m →
      layer_check view e = m.intersects RenderLayers.default) ∧
    RenderLayers.default = RenderLayers.layer 0 ∧
    RenderLayers.default.intersects (RenderLayers.layer 1) = false ∧
    (view.renderLayers = none → e.renderLayers = none → e.visibility = true →
      e.aabb = none → view_accepts i view e = true) := by
  refine ⟨?_, ?_, ?_, rfl, by decide, ?_⟩
  · intro h1 h2
    unfold layer_check
    rw [h1, h2]
    decide
  · intro h1 m h2
    unfold layer_check
    rw [h1, h2]
    rfl
  · intro h1 m h2
    unfold layer_check
    rw [h1, h2]
    rfl
  · intro h1 h2 h3 h4
    unfold view_accepts layer_check
    rw [h1, h2, h3, h4]
    cases htf : e.transform <;> rfl

/-- Witness for C4 amended, exercising each branch at concrete views and
entities. -/
theorem layer_check_missing_defaults_witness :
    layer_check viewNoMask entityNoMask = true ∧
    layer_check viewNoMask entityLayer1
      = RenderLayers.default.intersects (RenderLayers.layer 1) ∧
    layer_check viewLayer0 entityNoMask
      = (RenderLayers.layer 0).intersects RenderLayers.default ∧
    view_accepts acceptAll viewNoMask entityNoMask = true :=
  ⟨(layer_check_missing_defaults viewNoMask entityNoMask acceptAll).1 rfl rfl,
   (layer_check_missing_defaults viewNoMask entityLayer1 acceptAll).2.1 rfl
     (RenderLayers.layer 1) rfl,
   (layer_check_missing_defaults viewLayer0 entityNoMask acceptAll).2.2.1 rfl
     (RenderLayers.layer 0) rfl,
   (layer_check_missing_defaults viewNoMask entityNoMask acceptAll).2.2.2.2.2
     rfl rfl rfl rfl⟩

/-- Counterexample for C5 as stated: the clear stage cannot zero the
level-0 anisotropic texture set.  In the mipmap_layout only binding 1 is a
writable (write-only storage) texture, and the clear bind group built by
queue_mipmap_bind_groups puts the base voxel texture there, not any
anisotropic level-0 texture; the only anisotropic texture bound at all is
the full view of direction 0, at the read-only binding 0. -/
theorem clear_pass_counterexample :
    (queue_mipmap_bind_groups 7).clear.outputTexture = TextureRef.voxelTexture ∧
    ((List.range 6).all (fun d =>
      !((queue_mipmap_bind_groups 7).clear.outputTexture
          == TextureRef.anisotropicLevel d 0))) = true ∧
    ((List.range 6).all (fun d =>
      !((queue_mipmap_bind_groups 7).clear.inputTexture
          == TextureRef.anisotropicLevel d 0))) = true ∧
    (queue_mipmap_bind_groups 7).clear.inputTexture = TextureRef.anisotropic 0 := by
  decide

/-- C5 as amended: the per-frame Clear stage records, per volume, one
dispatch of the clear pipeline with group counts voxelSize / 8 on every
axis (covering the full cubed domain with the 8-per-axis workgroups of the
spec whenever 8 divides voxelSize); its bind group binds the base voxel
texture at the sole writable texture binding and the direction-0
anisotropic texture read-only, so the stage zeroes the voxel texture
rather than the level-0 anisotropic texture set. -/
theorem clear_pass_clears_voxel_texture (voxelSize levelCount : Nat)
    (gs : List MipmapBindGroupData) (h8 : WORKGROUP_SIZE ∣ voxelSize) :
    (∀ d ∈ voxel_clear_pass_run voxelSize (some ⟨true⟩) gs,
      d.pipeline = Pipeline.clear ∧
      d.x = voxelSize / 8 ∧ d.y = voxelSize / 8 ∧ d.z = voxelSize / 8 ∧
      d.x * WORKGROUP_SIZE = voxelSize) ∧
    (queue_mipmap_bind_groups levelCount).clear.outputTexture
      = TextureRef.voxelTexture ∧
    (queue_mipmap_bind_groups levelCount).clear.inputTexture
      = TextureRef.anisotropic 0 := by
  refine ⟨?_, rfl, rfl⟩
  intro d hd
  simp only [voxel_clear_pass_run, voxel_clear_pass_body, Bool.not_true,
    Bool.false_eq_true, if_false, List.mem_map] at hd
  obtain ⟨g, hg, rfl⟩ := hd
  refine ⟨rfl, rfl, rfl, rfl, ?_⟩
  have h8n : 8 ∣ voxelSize := h8
  simpa [WORKGROUP_SIZE, clear_dispatch] using Nat.div_mul_cancel h8n

/-- Witness for C5 amended at the spec sizes: voxel size 256 and 7 mip
levels give one 32-cubed clear dispatch whose writable target is the voxel
texture. -/
theorem clear_pass_clears_voxel_texture_witness :
    ((voxel_clear_pass_run VOXEL_SIZE (some ⟨true⟩)
        [queue_mipmap_bind_groups 7]).headD dispatch0).x * WORKGROUP_SIZE
      = VOXEL_SIZE ∧
    (queue_mipmap_bind_groups 7).clear.outputTexture = TextureRef.voxelTexture := by
  have h := clear_pass_clears_voxel_texture VOXEL_SIZE 7
    [queue_mipmap_bind_groups 7] ⟨32, rfl⟩
  exact ⟨(h.1 _ (by decide)).2.2.2.2, h.2.1⟩

/-- Counterexample for C6 as stated: the base-mip stage is not dispatched
as full resolution in Z with 8-cubed thread groups and a minimum of 1.
Under that reading the Z group count at voxel size 256 would be
max (256 / 8) 1 = 32 covering depth 256; the recorded dispatch instead
passes the half-resolution size itself as the Z group count, 128, which at
8 threads per axis would span 1024 texels, not 256. -/
theorem mipmap_base_counterexample :
    (mipmap_base_dispatch 256 (queue_mipmap_bind_groups 7)).x = 16 ∧
    (mipmap_base_dispatch 256 (queue_mipmap_bind_groups 7)).y = 16 ∧
    (mipmap_base_dispatch 256 (queue_mipmap_bind_groups 7)).z = 128 ∧
    (mipmap_base_dispatch 256 (queue_mipmap_bind_groups 7)).z ≠ max (256 / 8) 1 ∧
    (mipmap_base_dispatch 256 (queue_mipmap_bind_groups 7)).z * 8 ≠ 256 ∧
    (mipmap_pass_run 256 (some ⟨true⟩) [queue_mipmap_bind_groups 7])[1]?
      = some (mipmap_base_dispatch 256 (queue_mipmap_bind_groups 7)) := by
  decide

/-- C6 as amended: the base-mip pass is dispatched with group counts
max (voxelSize / 2 / 8) 1 in X and Y, while the Z group count is the
half-resolution size voxelSize / 2 itself, with no division by 8 and no
minimum applied in Z; for voxelSize 256 the recorded dispatch is
(16, 16, 128), and it is the second dispatch recorded by the mipmap node
for a volume. -/
theorem mipmap_base_dispatch_geometry (voxelSize : Nat) (g : MipmapBindGroupData) :
    (mipmap_base_dispatch voxelSize g).pipeline = Pipeline.mipmapBase ∧
    (mipmap_base_dispatch voxelSize g).bindGroup
      = BoundGroup.baseLayout g.mipmap_base ∧
    (mipmap_base_dispatch voxelSize g).x = max (voxelSize / 2 / 8) 1 ∧
    (mipmap_base_dispatch voxelSize g).y = max (voxelSize / 2 / 8) 1 ∧
    (mipmap_base_dispatch voxelSize g).z = voxelSize / 2 ∧
    1 ≤ (mipmap_base_dispatch voxelSize g).x ∧
    1 ≤ (mipmap_base_dispatch voxelSize g).y ∧
    (mipmap_base_dispatch 256 g).x = 16 ∧
    (mipmap_base_dispatch 256 g).z = 128 ∧
    (mipmap_pass_run voxelSize (some ⟨true⟩) [g])[1]?
      = some (mipmap_base_dispatch voxelSize g) := by
  refine ⟨rfl, rfl, rfl, rfl, rfl, ?_, ?_, rfl, rfl, ?_⟩
  · exact le_max_right _ _
  · exact le_max_right _ _
  · simp [mipmap_pass_run, mipmap_pass_body]

/-- Conversion of the source shift expression to a power of two. -/
theorem two_shiftLeft (k : Nat) : 2 <<< k = 2 ^ (k + 1) := by
  rw [Nat.shiftLeft_eq, pow_succ, Nat.mul_comm]

/-- C7: at every recursive mip level k of at least 1 and every direction,
the dispatched edge size is voxelSize / 2 ^ (k + 1), the per-axis group
count on all three axes is that size divided by 8 floored to a minimum of
1 (hence never below 1), the edge size at level k + 1 is half the size at
level k under flooring division, and exactly half whenever 2 ^ (k + 2)
divides the voxel size. -/
theorem mip_dispatch_geometry (voxelSize k direction : Nat)
    (bg : MipmapLayoutBindGroup) (_hk : 1 ≤ k) :
    mip_level_size voxelSize k = voxelSize / 2 ^ (k + 1) ∧
    (mip_dispatch voxelSize k direction bg).x
      = max (voxelSize / 2 ^ (k + 1) / 8) 1 ∧
    (mip_dispatch voxelSize k direction bg).y
      = (mip_dispatch voxelSize k direction bg).x ∧
    (mip_dispatch voxelSize k direction bg).z
      = (mip_dispatch voxelSize k direction bg).x ∧
    1 ≤ (mip_dispatch voxelSize k direction bg).x ∧
    mip_level_size voxelSize (k + 1) = mip_level_size voxelSize k / 2 ∧
    (2 ^ (k + 2) ∣ voxelSize →
      2 * mip_level_size voxelSize (k + 1) = mip_level_size voxelSize k) := by
  have hsize : mip_level_size voxelSize k = voxelSize / 2 ^ (k + 1) := by
    rw [mip_level_size, two_shiftLeft]
  refine ⟨hsize, ?_, rfl, rfl, ?_, ?_, ?_⟩
  · rw [show (mip_dispatch voxelSize k direction bg).x
        = mip_dispatch_count (mip_level_size voxelSize k) from rfl,
      mip_dispatch_count, hsize]
  · exact le_max_right _ _
  · rw [mip_level_size, mip_level_size, two_shiftLeft, two_shiftLeft,
      pow_succ 2 (k + 1), Nat.div_div_eq_div_mul]
  · rintro ⟨m, rfl⟩
    have hp1 : 0 < 2 ^ (k + 1) := pow_pos (by norm_num) _
    have hp2 : 0 < 2 ^ (k + 2) := pow_pos (by norm_num) _
    rw [mip_level_size, mip_level_size, two_shiftLeft, two_shiftLeft,
      Nat.mul_div_cancel_left m hp2]
    have hsplit : 2 ^ (k + 2) * m = 2 ^ (k + 1) * (2 * m) := by ring
    rw [hsplit, Nat.mul_div_cancel_left _ hp1]

/-- Witness for C7 at voxel size 256: level 1 has size 64 with group count
8, the coarsest modelled level still dispatches at least one group per
axis, and the level-1 to level-2 step halves exactly. -/
theorem mip_dispatch_geometry_witness :
    mip_level_size 256 1 = 64 ∧
    (mip_dispatch 256 1 0 default_mip_bg).x = 8 ∧
    1 ≤ (mip_dispatch 256 6 0 default_mip_bg).x ∧
    2 * mip_level_size 256 2 = mip_level_size 256 1 := by
  have h1 := mip_dispatch_geometry 256 1 0 default_mip_bg (by decide)
  have h6 := mip_dispatch_geometry 256 6 0 default_mip_bg (by decide)
  exact ⟨by decide, by decide, h6.2.2.2.2.1, h1.2.2.2.2.2.2 ⟨32, rfl⟩⟩

/-- C8: when the GiConfig resource is present with the enabled flag false,
queue_voxel_meshes queues no voxel phase items (every view phase is left
exactly as it was) and each of the voxel, mipmap and clear pass nodes
records no draw or dispatch command, so any abstract GPU state is left
unchanged by the frame. -/
theorem gi_disabled_no_work {σ : Type}
    (assets : QueueAssets) (views : List ViewPhase)
    (vol : Option (List VolumeViewPhase)) (voxelSize : Nat)
    (gs : List MipmapBindGroupData) (step : Dispatch → σ → σ) (s : σ) :
    queue_voxel_meshes ⟨false⟩ assets views = views ∧
    voxel_pass_run (some ⟨false⟩) vol = [] ∧
    mipmap_pass_run voxelSize (some ⟨false⟩) gs = [] ∧
    voxel_clear_pass_run voxelSize (some ⟨false⟩) gs = [] ∧
    apply_dispatches step (mipmap_pass_run voxelSize (some ⟨false⟩) gs) s = s ∧
    apply_dispatches step (voxel_clear_pass_run voxelSize (some ⟨false⟩) gs) s
      = s :=
  ⟨rfl, rfl, rfl, rfl, rfl, rfl⟩

/-- C9: when the GiConfig resource is absent, each pass node behaves
exactly as when the resource is present and enabled, and records its work:
the enable gate only takes effect when the resource exists. -/
theorem gi_missing_config_runs (voxelSize : Nat)
    (gs : List MipmapBindGroupData) (vol : Option (List VolumeViewPhase)) :
    voxel_clear_pass_run voxelSize none gs
      = voxel_clear_pass_run voxelSize (some ⟨true⟩) gs ∧
    mipmap_pass_run voxelSize none gs
      = mipmap_pass_run voxelSize (some ⟨true⟩) gs ∧
    voxel_pass_run none vol = voxel_pass_run (some ⟨true⟩) vol ∧
    (gs ≠ [] → voxel_clear_pass_run voxelSize none gs ≠ []) ∧
    (gs ≠ [] → mipmap_pass_run voxelSize none gs ≠ []) ∧
    (∀ vws, vol = some vws → vws ≠ [] → voxel_pass_run none vol ≠ []) := by
  refine ⟨rfl, rfl, rfl, ?_, ?_, ?_⟩
  · intro h
    cases gs with
    | nil => exact absurd rfl h
    | cons g rest => simp [voxel_clear_pass_run, voxel_clear_pass_body]
  · intro h
    cases gs with
    | nil => exact absurd rfl h
    | cons g rest => simp [mipmap_pass_run, mipmap_pass_body]
  · rintro vws rfl h
    cases vws with
    | nil => exact absurd rfl h
    | cons v rest => simp [voxel_pass_run, voxel_pass_body]

/-- Witness for C9: with the resource absent, each node records work for a
concrete volume with its bind groups and one view. -/
theorem gi_missing_config_runs_witness :
    voxel_clear_pass_run VOXEL_SIZE none [queue_mipmap_bind_groups 7] ≠ [] ∧
    mipmap_pass_run VOXEL_SIZE none [queue_mipmap_bind_groups 7] ≠ [] ∧
    voxel_pass_run none (some [⟨3, []⟩]) ≠ [] := by
  have h := gi_missing_config_runs VOXEL_SIZE [queue_mipmap_bind_groups 7]
    (some [⟨3, []⟩])
  exact ⟨h.2.2.2.1 (by simp), h.2.2.2.2.1 (by simp),
    h.2.2.2.2.2 [⟨3, []⟩] rfl (by simp)⟩

end HikariVoxel
